import Mathlib

/-!
Shallow embedding of the Optimism consensus validator
(crates/optimism/consensus/src/lib.rs) together with models of the helper
routines it calls from neighbouring crates (the validation module and the
shared consensus-common validators), which are specified in the design
document but whose source is not part of this snapshot.  Theorems at the
end settle the behavioural claims about the validator.
-/

namespace RethOpConsensus

/-- Pair of an observed and an expected value, as carried by diagnostic
consensus errors. -/
structure GotExpected (α : Type) where
  got : α
  expected : α
deriving DecidableEq, Repr

/-- Canonical commitment of an empty ommer list
(keccak256 of the RLP empty list), as a natural number. -/
def EMPTY_OMMER_ROOT_HASH : Nat :=
  0x1dcc4de8dec75d7aab85b567b6ccd41ad312451b948a7413f0a142fd40d49347

/-- Canonical commitment of an empty withdrawals list
(the empty trie root), as a natural number. -/
def EMPTY_WITHDRAWALS : Nat :=
  0x56e81f171bcc55a6ff8345e692c0f86e5b48e01b996cadc001622fb5e363b421

/-- Closed error taxonomy of the consensus validator (the variants the
embedded entry points can produce). -/
inductive ConsensusError where
  | ParentHashMismatch (g : GotExpected Nat)
  | ParentBlockNumberMismatch (g : GotExpected Nat)
  | TimestampIsInPast (g : GotExpected Nat)
  | BaseFeeMissing
  | BaseFeeDiff (g : GotExpected Nat)
  | BodyOmmersHashDiff (g : GotExpected Nat)
  | BodyTransactionRootDiff (g : GotExpected Nat)
  | BlobGasUsedExceedsLimit (g : GotExpected Nat)
  | BlobGasUsedDiff (g : GotExpected Nat)
  | BlobGasDiff (g : GotExpected Nat)
  | TheMergeNonceIsNotZero
  | TheMergeOmmerRootIsNotEmpty
  | ExtraDataExceedsMax (len : Nat)
  | BodyWithdrawalsRootDiff (g : GotExpected Nat)
  | Other (msg : String)
deriving DecidableEq, Repr

/-- Block header: the fields read by the validator.  Optional fields model
the source accessors that return an Option. -/
structure Header where
  parentHash : Nat
  number : Nat
  timestamp : Nat
  gasLimit : Nat
  gasUsed : Nat
  baseFeePerGas : Option Nat
  ommersHash : Nat
  transactionsRoot : Nat
  withdrawalsRoot : Option Nat
  extraData : List Nat
  nonce : Option Nat
  blobGasUsed : Option Nat
  excessBlobGas : Option Nat
deriving DecidableEq, Repr

/-- Header sealed with its block hash. -/
structure SealedHeader where
  header : Header
  hash : Nat
deriving DecidableEq, Repr

/-- Transaction: the validator only reads the blob gas a transaction
declares (none for non-blob transactions) plus an opaque payload that
feeds the transactions-root commitment. -/
structure Transaction where
  payload : Nat
  blobGasUsed : Option Nat
deriving DecidableEq, Repr

/-- Block body: transactions, ommer headers and an optional withdrawals
list. -/
structure Body where
  transactions : List Transaction
  ommers : List Header
  withdrawals : Option (List Nat)
deriving DecidableEq, Repr

/-- Sealed block: sealed header plus body. -/
structure SealedBlock where
  header : SealedHeader
  body : Body
deriving DecidableEq, Repr

/-- Blob-market parameters supplied by the chain specification for a
given timestamp. -/
structure BlobParams where
  target : Nat
  maxCount : Nat
  updateFraction : Nat
deriving DecidableEq, Repr

/-- Chain specification: hardfork activation predicates keyed by
timestamp or block number, blob parameters, and the static EIP-1559
constants.  Immutable and shared read-only across validation calls. -/
structure ChainSpec where
  isBedrockActiveAtBlock : Nat → Bool
  isShanghaiActiveAtTimestamp : Nat → Bool
  isCancunActiveAtTimestamp : Nat → Bool
  isIsthmusActiveAtTimestamp : Nat → Bool
  isHoloceneActiveAtTimestamp : Nat → Bool
  blobParamsAtTimestamp : Nat → Option BlobParams
  baseFeeMaxChangeDenominator : Nat
  baseFeeElasticityMultiplier : Nat

/-- Mixing step used by the modelled commitment functions: an executable
stand-in for the hashing of list elements into a root. -/
def mix (a b : Nat) : Nat := a * 1000000007 + b + 1

/-- Modelled from the spec: fingerprint of a header used when folding an
ommer list into its commitment root. -/
def headerFingerprint (h : Header) : Nat :=
  mix (mix h.parentHash h.number) (mix h.timestamp h.ommersHash)

/-- Modelled from the spec (Commitment Root Calculator): commitment over
an ommer list; the empty list yields the canonical empty-list constant. -/
def ommersRootHash : List Header → Nat
  | [] => EMPTY_OMMER_ROOT_HASH
  | hs => hs.foldl (fun acc h => mix acc (headerFingerprint h)) 23

/-- Modelled from the spec: the body's `calculate_ommers_root` accessor.
The body carries an explicit ommer list, so the commitment is always
computable; the Option mirrors the source accessor's return type. -/
def calculate_ommers_root (b : Body) : Option Nat :=
  some (ommersRootHash b.ommers)

/-- Modelled from the spec: commitment over the ordered transaction
list. -/
def transactionsRootHash (ts : List Transaction) : Nat :=
  ts.foldl (fun acc t => mix acc (mix t.payload (t.blobGasUsed.getD 0))) 17

/-- Modelled from the spec: the block's `ensure_transaction_root_valid`,
recomputing the transactions root and comparing it with the header's
declared value. -/
def ensure_transaction_root_valid (b : SealedBlock) : Except (GotExpected Nat) Unit :=
  let root := transactionsRootHash b.body.transactions
  if b.header.header.transactionsRoot = root then .ok ()
  else .error ⟨root, b.header.header.transactionsRoot⟩

/-- Modelled from the spec (§4.1): fee-market adjustment formula with an
explicit denominator.  Unchanged at target, increased by at least one
above target, decreased (floored at zero by Nat subtraction) below. -/
def nextBaseFee (parentBaseFee parentGasUsed parentGasTarget denominator : Nat) : Nat :=
  if parentGasUsed = parentGasTarget then parentBaseFee
  else if parentGasUsed > parentGasTarget then
    parentBaseFee +
      max 1 (parentBaseFee * (parentGasUsed - parentGasTarget) / parentGasTarget / denominator)
  else
    parentBaseFee -
      parentBaseFee * (parentGasTarget - parentGasUsed) / parentGasTarget / denominator

/-- Decode failure of the packed base-fee-parameter block. -/
inductive EIP1559ParamError where
  | invalidLength (len : Nat)
  | invalidVersion (v : Nat)
deriving DecidableEq, Repr

/-- Big-endian 32-bit integer from four bytes. -/
def beU32 (b0 b1 b2 b3 : Nat) : Nat :=
  ((b0 * 256 + b1) * 256 + b2) * 256 + b3

/-- Modelled from the spec (§4.1, Economic Parameter Codec): the packed
base-fee-parameter block is one version byte followed by two 4-byte
big-endian unsigned integers, denominator then elasticity; a malformed
length or version byte is a dedicated decode error. -/
def decodeEIP1559Params (extra : List Nat) : Except EIP1559ParamError (Nat × Nat) :=
  match extra with
  | [v, a0, a1, a2, a3, b0, b1, b2, b3] =>
    if v = 0 then .ok (beU32 a0 a1 a2 a3, beU32 b0 b1 b2 b3)
    else .error (.invalidVersion v)
  | _ => .error (.invalidLength extra.length)

/-- Modelled from the spec (§4.1): `decode_holocene_base_fee` decodes the
parent's extension data and computes the expected next base fee with the
decoded denominator and elasticity in place of the static defaults. -/
def decode_holocene_base_fee (cs : ChainSpec) (parent : Header) (timestamp : Nat) :
    Except EIP1559ParamError Nat :=
  match decodeEIP1559Params parent.extraData with
  | .error e => .error e
  | .ok (denominator, elasticity) =>
    let _ := cs
    let _ := timestamp
    let gasTarget := parent.gasLimit / elasticity
    .ok (nextBaseFee (parent.baseFeePerGas.getD 0) parent.gasUsed gasTarget denominator)

/-- Modelled from the spec (§4.4 step 3, legacy branch): EIP-1559
parent-comparison rule using the chain's static constants. -/
def validate_against_parent_eip1559_base_fee (cs : ChainSpec) (header parent : Header) :
    Except ConsensusError Unit :=
  match header.baseFeePerGas with
  | none => .error .BaseFeeMissing
  | some got =>
    let gasTarget := parent.gasLimit / cs.baseFeeElasticityMultiplier
    let expected :=
      nextBaseFee (parent.baseFeePerGas.getD 0) parent.gasUsed gasTarget
        cs.baseFeeMaxChangeDenominator
    if got = expected then .ok () else .error (.BaseFeeDiff ⟨got, expected⟩)

/-- Modelled from the spec (§4.4 step 1 of header-vs-parent): parent hash
and number linkage. -/
def validate_against_parent_hash_number (header : Header) (parent : SealedHeader) :
    Except ConsensusError Unit :=
  if header.parentHash ≠ parent.hash then
    .error (.ParentHashMismatch ⟨header.parentHash, parent.hash⟩)
  else if header.number ≠ parent.header.number + 1 then
    .error (.ParentBlockNumberMismatch ⟨header.number, parent.header.number + 1⟩)
  else .ok ()

/-- Modelled from the spec (§4.4 step 2): timestamp must be strictly
greater than the parent's. -/
def validate_against_parent_timestamp (header parent : Header) :
    Except ConsensusError Unit :=
  if header.timestamp > parent.timestamp then .ok ()
  else .error (.TimestampIsInPast ⟨parent.timestamp, header.timestamp⟩)

/-- Gas consumed per blob (EIP-4844 constant). -/
def DATA_GAS_PER_BLOB : Nat := 131072

/-- Modelled from the spec (§4.4 step 4 of header-vs-parent): excess blob
gas transition arithmetic against the parent. -/
def validate_against_parent_4844 (header parent : Header) (params : BlobParams) :
    Except ConsensusError Unit :=
  let parentExcess := parent.excessBlobGas.getD 0
  let parentUsed := parent.blobGasUsed.getD 0
  let expected := parentExcess + parentUsed - params.target * DATA_GAS_PER_BLOB
  if header.excessBlobGas = some expected then .ok ()
  else .error (.BlobGasDiff ⟨header.excessBlobGas.getD 0, expected⟩)

/-- Per-block maximum total blob gas. -/
def MAX_BLOB_GAS_PER_BLOCK : Nat := 786432

/-- Modelled from the spec (§4.4 step 4 of pre-execution validation): the
sum of blob gas declared across transactions must not exceed the
per-block maximum and must match the header's blob-gas-used field. -/
def validate_cancun_gas (b : SealedBlock) : Except ConsensusError Unit :=
  let total := (b.body.transactions.map (fun t => t.blobGasUsed.getD 0)).foldl (fun a c => a + c) 0
  if total > MAX_BLOB_GAS_PER_BLOCK then
    .error (.BlobGasUsedExceedsLimit ⟨total, MAX_BLOB_GAS_PER_BLOCK⟩)
  else if b.header.header.blobGasUsed = some total then .ok ()
  else .error (.BlobGasUsedDiff ⟨b.header.header.blobGasUsed.getD 0, total⟩)

/-- Modelled from the spec (§4.3 row 2): with the withdrawals hardfork
active the withdrawals list must be present and empty; the message feeds
the wrapping into an Other error. -/
def ensure_empty_shanghai_withdrawals (b : Body) : Except String Unit :=
  match b.withdrawals with
  | none => .error "missing withdrawals list"
  | some ws => if ws.isEmpty then .ok () else .error "non-empty withdrawals list"

/-- Modelled from the spec (§4.3 row 4): with the storage-root hardfork
active the header must carry a withdrawals-root value; presence only. -/
def ensure_withdrawals_storage_root_is_some (h : Header) : Except String Unit :=
  if h.withdrawalsRoot.isSome then .ok () else .error "missing withdrawals root"

/-- Modelled from the spec (§4.3 row 3): between the next-withdrawals and
storage-root hardforks the header's withdrawals-root must equal the
canonical empty root constant. -/
def ensure_empty_withdrawals_root (h : Header) : Except ConsensusError Unit :=
  if h.withdrawalsRoot = some EMPTY_WITHDRAWALS then .ok ()
  else .error (.BodyWithdrawalsRootDiff ⟨h.withdrawalsRoot.getD 0, EMPTY_WITHDRAWALS⟩)

/-- Maximum extension-data length accepted post-merge. -/
def MAXIMUM_EXTRA_DATA_SIZE : Nat := 32

/-- Modelled from the spec (§4.4): shared extra-data validator enforcing
the post-merge format constraint on extension-data length. -/
def validate_header_extra_data (h : Header) : Except ConsensusError Unit :=
  if h.extraData.length ≤ MAXIMUM_EXTRA_DATA_SIZE then .ok ()
  else .error (.ExtraDataExceedsMax h.extraData.length)

/-- Diagnostic prefix used when wrapping structural rule failures, as in
the source's format string. -/
def verifyFailMsg (number : Nat) (msg : String) : String :=
  "failed to verify block " ++ toString number ++ ": " ++ msg

/-- Translation of `validate_block_pre_execution` from
crates/optimism/consensus/src/lib.rs: ommers commitment, transaction
root, then the hardfork-tiered withdrawals and blob checks with the
source's early returns on inactive hardforks. -/
def validate_block_pre_execution (cs : ChainSpec) (b : SealedBlock) :
    Except ConsensusError Unit :=
  let ommersHash := calculate_ommers_root b.body
  if some b.header.header.ommersHash ≠ ommersHash then
    .error (.BodyOmmersHashDiff
      ⟨ommersHash.getD EMPTY_OMMER_ROOT_HASH, b.header.header.ommersHash⟩)
  else
    match ensure_transaction_root_valid b with
    | .error ge => .error (.BodyTransactionRootDiff ge)
    | .ok () =>
      if cs.isShanghaiActiveAtTimestamp b.header.header.timestamp then
        match ensure_empty_shanghai_withdrawals b.body with
        | .error msg => .error (.Other (verifyFailMsg b.header.header.number msg))
        | .ok () =>
          if cs.isCancunActiveAtTimestamp b.header.header.timestamp then
            match validate_cancun_gas b with
            | .error e => .error e
            | .ok () =>
              if cs.isIsthmusActiveAtTimestamp b.header.header.timestamp then
                match ensure_withdrawals_storage_root_is_some b.header.header with
                | .error msg => .error (.Other (verifyFailMsg b.header.header.number msg))
                | .ok () => .ok ()
              else
                ensure_empty_withdrawals_root b.header.header
          else .ok ()
      else .ok ()

/-- Translation of the inline Holocene base-fee block of
`validate_header_against_parent` (lib.rs lines 155-166): require a base
fee on the header, decode the expected value from the parent, and compare. -/
def holocene_base_fee_check (cs : ChainSpec) (header : Header) (parent : SealedHeader) :
    Except ConsensusError Unit :=
  match header.baseFeePerGas with
  | none => .error .BaseFeeMissing
  | some headerBaseFee =>
    match decode_holocene_base_fee cs parent.header header.timestamp with
    | .error _ => .error .BaseFeeMissing
    | .ok expectedBaseFee =>
      if expectedBaseFee ≠ headerBaseFee then
        .error (.BaseFeeDiff ⟨headerBaseFee, expectedBaseFee⟩)
      else .ok ()

/-- Translation of the final blob step of `validate_header_against_parent`
(lib.rs lines 176-178): run the 4844 transition check when blob
parameters are defined for the header's timestamp. -/
def blob_gate (cs : ChainSpec) (header parent : Header) : Except ConsensusError Unit :=
  match cs.blobParamsAtTimestamp header.timestamp with
  | some params => validate_against_parent_4844 header parent params
  | none => .ok ()

/-- Translation of `validate_header_against_parent` from
crates/optimism/consensus/src/lib.rs: parent linkage, Bedrock-gated
timestamp rule, Holocene-or-legacy base fee rule, then the blob gate. -/
def validate_header_against_parent (cs : ChainSpec) (header parent : SealedHeader) :
    Except ConsensusError Unit :=
  match validate_against_parent_hash_number header.header parent with
  | .error e => .error e
  | .ok () =>
    match (if cs.isBedrockActiveAtBlock header.header.number then
            validate_against_parent_timestamp header.header parent.header
          else .ok ()) with
    | .error e => .error e
    | .ok () =>
      match (if cs.isHoloceneActiveAtTimestamp parent.header.timestamp then
              holocene_base_fee_check cs header.header parent
            else
              validate_against_parent_eip1559_base_fee cs header.header parent.header) with
      | .error e => .error e
      | .ok () => blob_gate cs header.header parent.header

/-- Translation of `validate_header_with_total_difficulty` from
crates/optimism/consensus/src/lib.rs: nonce must be the all-zero
sentinel, ommers hash the canonical empty constant, then the shared
extra-data validator. -/
def validate_header_with_total_difficulty (h : Header) : Except ConsensusError Unit :=
  if h.nonce ≠ some 0 then .error .TheMergeNonceIsNotZero
  else if h.ommersHash ≠ EMPTY_OMMER_ROOT_HASH then .error .TheMergeOmmerRootIsNotEmpty
  else validate_header_extra_data h

/-! Concrete fixtures used by witnesses and counterexamples. -/

/-- Chain specification with every modelled hardfork active and no blob
schedule. -/
def csAllActive : ChainSpec where
  isBedrockActiveAtBlock := fun _ => true
  isShanghaiActiveAtTimestamp := fun _ => true
  isCancunActiveAtTimestamp := fun _ => true
  isIsthmusActiveAtTimestamp := fun _ => true
  isHoloceneActiveAtTimestamp := fun _ => true
  blobParamsAtTimestamp := fun _ => none
  baseFeeMaxChangeDenominator := 8
  baseFeeElasticityMultiplier := 2

/-- Chain specification with no hardfork active. -/
def csNoneActive : ChainSpec :=
  { csAllActive with
    isBedrockActiveAtBlock := fun _ => false
    isShanghaiActiveAtTimestamp := fun _ => false
    isCancunActiveAtTimestamp := fun _ => false
    isIsthmusActiveAtTimestamp := fun _ => false
    isHoloceneActiveAtTimestamp := fun _ => false }

/-- Chain specification with Shanghai and Cancun active but Isthmus and
Holocene inactive. -/
def csShanghaiCancun : ChainSpec :=
  { csAllActive with
    isIsthmusActiveAtTimestamp := fun _ => false
    isHoloceneActiveAtTimestamp := fun _ => false }

/-- Chain specification with only Shanghai active among the
timestamp-keyed forks. -/
def csShanghaiOnly : ChainSpec :=
  { csShanghaiCancun with isCancunActiveAtTimestamp := fun _ => false }

/-- Baseline header whose ommers hash and transactions root are
consistent with an empty body. -/
def baseHeader : Header where
  parentHash := 0
  number := 1
  timestamp := 100
  gasLimit := 200
  gasUsed := 100
  baseFeePerGas := some 100
  ommersHash := EMPTY_OMMER_ROOT_HASH
  transactionsRoot := transactionsRootHash []
  withdrawalsRoot := none
  extraData := []
  nonce := some 0
  blobGasUsed := none
  excessBlobGas := none

/-- Baseline body: no transactions, no ommers, no withdrawals list. -/
def baseBody : Body where
  transactions := []
  ommers := []
  withdrawals := none

/-- Baseline sealed block over the baseline header and body. -/
def baseBlock : SealedBlock where
  header := { header := baseHeader, hash := 42 }
  body := baseBody

/-! Helper lemmas about the error shapes the individual steps can
produce. -/

lemma validate_cancun_gas_not_ommers (b : SealedBlock) (g : GotExpected Nat) :
    validate_cancun_gas b ≠ .error (.BodyOmmersHashDiff g) := by
  unfold validate_cancun_gas
  dsimp only
  split
  · simp
  · split <;> simp

lemma ensure_empty_withdrawals_root_not_ommers (h : Header) (g : GotExpected Nat) :
    ensure_empty_withdrawals_root h ≠ .error (.BodyOmmersHashDiff g) := by
  unfold ensure_empty_withdrawals_root
  split <;> simp

lemma hash_number_not_timestamp (h : Header) (p : SealedHeader) (g : GotExpected Nat) :
    validate_against_parent_hash_number h p ≠ .error (.TimestampIsInPast g) := by
  unfold validate_against_parent_hash_number
  split
  · simp
  · split <;> simp

lemma holocene_check_not_timestamp (cs : ChainSpec) (h : Header) (p : SealedHeader)
    (g : GotExpected Nat) :
    holocene_base_fee_check cs h p ≠ .error (.TimestampIsInPast g) := by
  unfold holocene_base_fee_check
  split
  · simp
  · split
    · simp
    · split <;> simp

lemma eip1559_not_timestamp (cs : ChainSpec) (h p : Header) (g : GotExpected Nat) :
    validate_against_parent_eip1559_base_fee cs h p ≠ .error (.TimestampIsInPast g) := by
  unfold validate_against_parent_eip1559_base_fee
  split
  · simp
  · dsimp only
    split <;> simp

lemma blob_gate_not_timestamp (cs : ChainSpec) (h p : Header) (g : GotExpected Nat) :
    blob_gate cs h p ≠ .error (.TimestampIsInPast g) := by
  unfold blob_gate
  split
  · unfold validate_against_parent_4844
    dsimp only
    split <;> simp
  · simp

/-- Header fixture with a non-zero nonce (the 0x0000000000000001
scenario). -/
def hdrNonceOne : Header := { baseHeader with nonce := some 1 }

/-- Header fixture with a zero nonce but a non-canonical ommers hash. -/
def hdrZeroNonceBadOmmers : Header := { baseHeader with nonce := some 0, ommersHash := 5 }

/-- Header fixture whose nonce accessor yields no value. -/
def hdrNoNonce : Header := { baseHeader with nonce := none }

/-- C6: validate_header_with_total_difficulty fails with
TheMergeNonceIsNotZero whenever the nonce differs from the all-zero
sentinel (regardless of the ommers hash, so the nonce check comes
first), and with a zero nonce fails with TheMergeOmmerRootIsNotEmpty
whenever the ommers hash differs from the canonical empty constant. -/
theorem ttd_nonce_then_ommers_rule (h : Header) :
    (h.nonce ≠ some 0 →
      validate_header_with_total_difficulty h = .error .TheMergeNonceIsNotZero) ∧
    (h.nonce = some 0 → h.ommersHash ≠ EMPTY_OMMER_ROOT_HASH →
      validate_header_with_total_difficulty h = .error .TheMergeOmmerRootIsNotEmpty) := by
  constructor
  · intro hn
    simp [validate_header_with_total_difficulty, hn]
  · intro hn ho
    simp [validate_header_with_total_difficulty, hn, ho]

/-- C6 witness: a header with nonce one is rejected for its nonce even
though its ommers hash is non-canonical elsewhere, and a zero-nonce
header with a wrong ommers hash is rejected for its ommers hash. -/
theorem ttd_nonce_then_ommers_rule_witness :
    validate_header_with_total_difficulty hdrNonceOne = .error .TheMergeNonceIsNotZero ∧
    validate_header_with_total_difficulty hdrZeroNonceBadOmmers =
      .error .TheMergeOmmerRootIsNotEmpty :=
  ⟨(ttd_nonce_then_ommers_rule hdrNonceOne).1 (by decide),
   (ttd_nonce_then_ommers_rule hdrZeroNonceBadOmmers).2 (by decide) (by decide)⟩

/-- C10: a header whose nonce accessor yields no value is rejected by
validate_header_with_total_difficulty with the same
TheMergeNonceIsNotZero error as a non-zero nonce. -/
theorem ttd_absent_nonce_rejected (h : Header) (hn : h.nonce = none) :
    validate_header_with_total_difficulty h = .error .TheMergeNonceIsNotZero := by
  simp [validate_header_with_total_difficulty, hn]

/-- C10 witness: the fixture header without a nonce is rejected with
TheMergeNonceIsNotZero. -/
theorem ttd_absent_nonce_rejected_witness :
    validate_header_with_total_difficulty hdrNoNonce = .error .TheMergeNonceIsNotZero :=
  ttd_absent_nonce_rejected hdrNoNonce rfl

/-- C9: the validation entry points are deterministic pure functions of
their inputs: equal block/header/parent values under the same chain
specification yield equal verdicts (the embedding is purely functional,
so no invocation mutates the block, the headers or the specification). -/
theorem validators_deterministic (cs : ChainSpec) (b1 b2 : SealedBlock)
    (hdr1 hdr2 par1 par2 : SealedHeader)
    (hb : b1 = b2) (hh : hdr1 = hdr2) (hp : par1 = par2) :
    validate_block_pre_execution cs b1 = validate_block_pre_execution cs b2 ∧
    validate_header_against_parent cs hdr1 par1 =
      validate_header_against_parent cs hdr2 par2 := by
  subst hb
  subst hh
  subst hp
  exact ⟨rfl, rfl⟩

/-- C9 witness: determinism instantiated at the baseline fixtures. -/
theorem validators_deterministic_witness :
    validate_block_pre_execution csNoneActive baseBlock =
      validate_block_pre_execution csNoneActive baseBlock ∧
    validate_header_against_parent csNoneActive baseBlock.header baseBlock.header =
      validate_header_against_parent csNoneActive baseBlock.header baseBlock.header :=
  validators_deterministic csNoneActive baseBlock baseBlock baseBlock.header
    baseBlock.header baseBlock.header baseBlock.header rfl rfl rfl

/-- C2: once the rule for the active hardfork tier is satisfied,
validate_block_pre_execution returns success without evaluating
later-tier checks: with consistent ommers hash and transaction root,
Shanghai inactive yields success outright, and Shanghai active with
Cancun inactive yields success right after the empty-withdrawals
check. -/
theorem pre_execution_tier_early_return (cs : ChainSpec) (b : SealedBlock)
    (h1 : some b.header.header.ommersHash = calculate_ommers_root b.body)
    (h2 : ensure_transaction_root_valid b = .ok ()) :
    (cs.isShanghaiActiveAtTimestamp b.header.header.timestamp = false →
      validate_block_pre_execution cs b = .ok ()) ∧
    (cs.isShanghaiActiveAtTimestamp b.header.header.timestamp = true →
      cs.isCancunActiveAtTimestamp b.header.header.timestamp = false →
      ensure_empty_shanghai_withdrawals b.body = .ok () →
      validate_block_pre_execution cs b = .ok ()) := by
  constructor
  · intro hs
    simp [validate_block_pre_execution, h1.symm, h2, hs]
  · intro hs hc hw
    simp [validate_block_pre_execution, h1.symm, h2, hs, hc, hw]

/-- Block fixture for the pre-Shanghai tier: the Cancun blob check and
every withdrawals-root check would fail on it if they were evaluated
(blob-gas-used is absent and the withdrawals root is absent). -/
def blkPreShanghai : SealedBlock :=
  { baseBlock with body := { baseBody with withdrawals := none } }

/-- Block fixture for the Shanghai-only tier: empty withdrawals list,
absent blob-gas-used and absent withdrawals root, so the Cancun and
withdrawals-root checks would fail on it if they were evaluated. -/
def blkShanghaiOnly : SealedBlock :=
  { baseBlock with body := { baseBody with withdrawals := some [] } }

/-- C2 witness: the pre-Shanghai fixture passes under a specification
with nothing active, and the Shanghai-only fixture passes right after
its empty-withdrawals check. -/
theorem pre_execution_tier_early_return_witness :
    validate_block_pre_execution csNoneActive blkPreShanghai = .ok () ∧
    validate_block_pre_execution csShanghaiOnly blkShanghaiOnly = .ok () :=
  ⟨(pre_execution_tier_early_return csNoneActive blkPreShanghai (by rfl) (by rfl)).1 rfl,
   (pre_execution_tier_early_return csShanghaiOnly blkShanghaiOnly (by rfl) (by rfl)).2
      rfl rfl (by rfl)⟩

/-- Block fixture carrying a non-empty withdrawals list. -/
def blkNonEmptyWithdrawals : SealedBlock :=
  { baseBlock with body := { baseBody with withdrawals := some [5] } }

/-- C3 counterexample: a block with the withdrawals hardfork inactive
and a non-empty withdrawals list is accepted by
validate_block_pre_execution, not rejected with a withdrawals-invariant
error as the claim states. -/
theorem pre_hardfork_nonempty_withdrawals_accepted :
    blkNonEmptyWithdrawals.body.withdrawals = some [5] ∧
    csNoneActive.isShanghaiActiveAtTimestamp
      blkNonEmptyWithdrawals.header.header.timestamp = false ∧
    validate_block_pre_execution csNoneActive blkNonEmptyWithdrawals = .ok () :=
  ⟨rfl, rfl, rfl⟩

/-- C3 amended: before the withdrawals hardfork is active,
validate_block_pre_execution performs no withdrawals check at all: once
the ommers and transaction-root checks pass it returns success even when
the body carries a non-empty withdrawals list. -/
theorem pre_hardfork_withdrawals_unchecked (cs : ChainSpec) (b : SealedBlock)
    (hs : cs.isShanghaiActiveAtTimestamp b.header.header.timestamp = false)
    (h1 : some b.header.header.ommersHash = calculate_ommers_root b.body)
    (h2 : ensure_transaction_root_valid b = .ok ()) :
    validate_block_pre_execution cs b = .ok () := by
  simp [validate_block_pre_execution, h1.symm, h2, hs]

/-- C3 amended witness: the non-empty-withdrawals fixture is accepted
pre-hardfork. -/
theorem pre_hardfork_withdrawals_unchecked_witness :
    validate_block_pre_execution csNoneActive blkNonEmptyWithdrawals = .ok () :=
  pre_hardfork_withdrawals_unchecked csNoneActive blkNonEmptyWithdrawals rfl
    (by rfl) (by rfl)

/-- Block fixture where both the withdrawals-root rule and the blob-gas
accounting are violated: one transaction declares 100 blob gas while the
header says 5, and the header's withdrawals root is 999 rather than the
canonical empty constant; the withdrawals list itself is empty so the
Shanghai rule passes. -/
def blkBothViolated : SealedBlock where
  header :=
    { header :=
        { baseHeader with
          transactionsRoot := transactionsRootHash [{ payload := 1, blobGasUsed := some 100 }]
          blobGasUsed := some 5
          withdrawalsRoot := some 999 }
      hash := 42 }
  body :=
    { transactions := [{ payload := 1, blobGasUsed := some 100 }]
      ommers := []
      withdrawals := some [] }

/-- C4 counterexample: with Shanghai and Cancun active and both the
withdrawals-root rule and the blob-gas accounting violated, the verdict
is the blob-gas error, not the structural withdrawals-root error: the
withdrawals-root check runs after the blob-gas check. -/
theorem blob_error_precedes_withdrawals_root :
    blkBothViolated.header.header.withdrawalsRoot = some 999 ∧
    (999 : Nat) ≠ EMPTY_WITHDRAWALS ∧
    validate_cancun_gas blkBothViolated = .error (.BlobGasUsedDiff ⟨5, 100⟩) ∧
    validate_block_pre_execution csShanghaiCancun blkBothViolated =
      .error (.BlobGasUsedDiff ⟨5, 100⟩) ∧
    ConsensusError.BlobGasUsedDiff ⟨5, 100⟩ ≠
      ConsensusError.BodyWithdrawalsRootDiff ⟨999, EMPTY_WITHDRAWALS⟩ :=
  ⟨rfl, by decide, rfl, rfl, by decide⟩

/-- C4 amended: the Shanghai empty-withdrawals rule is evaluated before
the blob-gas validation, but the withdrawals-root rules of the
Canyon/Isthmus tiers are evaluated after it: for a block with Shanghai
and Cancun active whose blob-gas accounting fails, the blob-gas error is
returned even if the withdrawals-root rule is also violated. -/
theorem cancun_gas_before_withdrawals_root (cs : ChainSpec) (b : SealedBlock)
    (e : ConsensusError)
    (hs : cs.isShanghaiActiveAtTimestamp b.header.header.timestamp = true)
    (hc : cs.isCancunActiveAtTimestamp b.header.header.timestamp = true)
    (h1 : some b.header.header.ommersHash = calculate_ommers_root b.body)
    (h2 : ensure_transaction_root_valid b = .ok ())
    (hw : ensure_empty_shanghai_withdrawals b.body = .ok ())
    (hg : validate_cancun_gas b = .error e) :
    validate_block_pre_execution cs b = .error e := by
  simp [validate_block_pre_execution, h1.symm, h2, hs, hc, hw, hg]

/-- C4 amended witness: the double-violation fixture yields its blob-gas
error. -/
theorem cancun_gas_before_withdrawals_root_witness :
    validate_block_pre_execution csShanghaiCancun blkBothViolated =
      .error (.BlobGasUsedDiff ⟨5, 100⟩) :=
  cancun_gas_before_withdrawals_root csShanghaiCancun blkBothViolated
    (.BlobGasUsedDiff ⟨5, 100⟩) rfl rfl (by rfl) (by rfl) (by rfl) (by rfl)

/-- C5: for a block with zero ommers the recomputed ommers commitment is
the canonical empty-list constant, a header declaring that constant
matches it, and validate_block_pre_execution never reports an
ommers-hash mismatch for such a block. -/
theorem zero_ommers_empty_root_passes (cs : ChainSpec) (b : SealedBlock)
    (hom : b.body.ommers = [])
    (hh : b.header.header.ommersHash = EMPTY_OMMER_ROOT_HASH) :
    calculate_ommers_root b.body = some EMPTY_OMMER_ROOT_HASH ∧
    some b.header.header.ommersHash = calculate_ommers_root b.body ∧
    ∀ g, validate_block_pre_execution cs b ≠ .error (.BodyOmmersHashDiff g) := by
  have hcalc : calculate_ommers_root b.body = some EMPTY_OMMER_ROOT_HASH := by
    simp [calculate_ommers_root, hom, ommersRootHash]
  have heq : some b.header.header.ommersHash = calculate_ommers_root b.body := by
    rw [hh, hcalc]
  refine ⟨hcalc, heq, ?_⟩
  intro g
  unfold validate_block_pre_execution
  dsimp only
  rw [if_neg (by simp [heq.symm])]
  rcases htx : ensure_transaction_root_valid b with ge | u
  · simp
  · cases u
    by_cases hs : cs.isShanghaiActiveAtTimestamp b.header.header.timestamp = true
    · simp only [hs, if_true]
      rcases hwd : ensure_empty_shanghai_withdrawals b.body with msg | u2
      · simp
      · cases u2
        by_cases hc : cs.isCancunActiveAtTimestamp b.header.header.timestamp = true
        · simp only [hc, if_true]
          rcases hcg : validate_cancun_gas b with e | u3
          · intro hcontra
            simp only at hcontra
            exact validate_cancun_gas_not_ommers b g (hcg.trans hcontra)
          · cases u3
            by_cases hi : cs.isIsthmusActiveAtTimestamp b.header.header.timestamp = true
            · simp only [hi, if_true]
              rcases hws : ensure_withdrawals_storage_root_is_some b.header.header with m | u4
              · simp
              · simp
            · simp only [hi, Bool.false_eq_true, if_false]
              exact ensure_empty_withdrawals_root_not_ommers _ g
        · simp [hc]
    · simp [hs]

/-- Block fixture with zero ommers and the canonical empty ommers
commitment declared in its header. -/
def blkZeroOmmers : SealedBlock :=
  { baseBlock with body := { baseBody with withdrawals := some [] } }

/-- C5 witness: the zero-ommers fixture has the canonical empty
commitment and is never rejected for its ommers hash. -/
theorem zero_ommers_empty_root_passes_witness :
    calculate_ommers_root blkZeroOmmers.body = some EMPTY_OMMER_ROOT_HASH ∧
    validate_block_pre_execution csShanghaiCancun blkZeroOmmers ≠
      .error (.BodyOmmersHashDiff ⟨0, 0⟩) :=
  ⟨(zero_ommers_empty_root_passes csShanghaiCancun blkZeroOmmers rfl rfl).1,
   (zero_ommers_empty_root_passes csShanghaiCancun blkZeroOmmers rfl rfl).2.2 ⟨0, 0⟩⟩

/-- C1: with Holocene active at the parent's timestamp, once the
parent-linkage and timestamp steps pass, the parent's parameters decode
to an expected base fee e and the header carries base fee b, the
base-fee step succeeds exactly when b = e; on inequality the whole
validation returns BaseFeeDiff with got b and expected e, and on
equality it proceeds to the blob step. -/
theorem holocene_base_fee_rule (cs : ChainSpec) (header parent : SealedHeader) (b e : Nat)
    (hholo : cs.isHoloceneActiveAtTimestamp parent.header.timestamp = true)
    (hlink : validate_against_parent_hash_number header.header parent = .ok ())
    (hts : (if cs.isBedrockActiveAtBlock header.header.number then
            validate_against_parent_timestamp header.header parent.header
          else .ok ()) = .ok ())
    (hbf : header.header.baseFeePerGas = some b)
    (hdec : decode_holocene_base_fee cs parent.header header.header.timestamp = .ok e) :
    (holocene_base_fee_check cs header.header parent = .ok () ↔ b = e) ∧
    (b ≠ e → validate_header_against_parent cs header parent =
      .error (.BaseFeeDiff ⟨b, e⟩)) ∧
    (b = e → validate_header_against_parent cs header parent =
      blob_gate cs header.header parent.header) := by
  have hstep : holocene_base_fee_check cs header.header parent =
      if e ≠ b then .error (.BaseFeeDiff ⟨b, e⟩) else .ok () := by
    simp only [holocene_base_fee_check, hbf, hdec]
  refine ⟨?_, ?_, ?_⟩
  · rw [hstep]
    by_cases heq : b = e
    · subst heq
      simp
    · have hne : e ≠ b := fun hcontra => heq hcontra.symm
      simp [hne, heq]
  · intro hne
    have hne2 : e ≠ b := fun hcontra => hne hcontra.symm
    simp [validate_header_against_parent, hlink, hts, hholo, hstep, hne2]
  · intro heq
    subst heq
    simp [validate_header_against_parent, hlink, hts, hholo, hstep]

/-- Holocene parent fixture: extension data encodes denominator 8 and
elasticity 2, gas used equals the derived gas target, base fee 100. -/
def parHolocene : SealedHeader where
  header := { baseHeader with extraData := [0, 0, 0, 0, 8, 0, 0, 0, 2] }
  hash := 777

/-- Child header fixture matching the expected base fee 100. -/
def hdrChildOk : SealedHeader where
  header := { baseHeader with parentHash := 777, number := 2, timestamp := 200 }
  hash := 888

/-- Child header fixture with base fee 101 instead of the expected
100. -/
def hdrChildBad : SealedHeader where
  header :=
    { baseHeader with
      parentHash := 777, number := 2, timestamp := 200, baseFeePerGas := some 101 }
  hash := 888

/-- C1 witness: at the concrete Holocene fixtures the base-fee step
accepts 100, a header declaring 101 is rejected with got 101 expected
100, and the accepted header proceeds to the blob step. -/
theorem holocene_base_fee_rule_witness :
    (holocene_base_fee_check csAllActive hdrChildOk.header parHolocene = .ok () ↔
      (100 : Nat) = 100) ∧
    validate_header_against_parent csAllActive hdrChildBad parHolocene =
      .error (.BaseFeeDiff ⟨101, 100⟩) ∧
    validate_header_against_parent csAllActive hdrChildOk parHolocene =
      blob_gate csAllActive hdrChildOk.header parHolocene.header :=
  ⟨(holocene_base_fee_rule csAllActive hdrChildOk parHolocene 100 100 rfl (by rfl)
      (by rfl) rfl (by rfl)).1,
   (holocene_base_fee_rule csAllActive hdrChildBad parHolocene 101 100 rfl (by rfl)
      (by rfl) rfl (by rfl)).2.1 (by decide),
   (holocene_base_fee_rule csAllActive hdrChildOk parHolocene 100 100 rfl (by rfl)
      (by rfl) rfl (by rfl)).2.2 rfl⟩

/-- C7: with Holocene active at the parent's timestamp and the earlier
steps passing, any decode failure of the parent's parameter block makes
validate_header_against_parent return BaseFeeMissing (the raw decode
error is never propagated), and a header without a base fee also
returns BaseFeeMissing. -/
theorem holocene_decode_failure_masked (cs : ChainSpec) (header parent : SealedHeader)
    (hholo : cs.isHoloceneActiveAtTimestamp parent.header.timestamp = true)
    (hlink : validate_against_parent_hash_number header.header parent = .ok ())
    (hts : (if cs.isBedrockActiveAtBlock header.header.number then
            validate_against_parent_timestamp header.header parent.header
          else .ok ()) = .ok ()) :
    (∀ e, decode_holocene_base_fee cs parent.header header.header.timestamp = .error e →
      validate_header_against_parent cs header parent = .error .BaseFeeMissing) ∧
    (header.header.baseFeePerGas = none →
      validate_header_against_parent cs header parent = .error .BaseFeeMissing) := by
  constructor
  · intro e hdec
    rcases hbf : header.header.baseFeePerGas with _ | bfee
    · simp [validate_header_against_parent, hlink, hts, hholo, holocene_base_fee_check, hbf]
    · simp [validate_header_against_parent, hlink, hts, hholo, holocene_base_fee_check,
        hbf, hdec]
  · intro hbf
    simp [validate_header_against_parent, hlink, hts, hholo, holocene_base_fee_check, hbf]

/-- Parent fixture whose extension data is empty, so the parameter block
fails to decode. -/
def parBadExtra : SealedHeader where
  header := baseHeader
  hash := 777

/-- Child header fixture with no base fee. -/
def hdrNoBaseFee : SealedHeader where
  header :=
    { baseHeader with
      parentHash := 777, number := 2, timestamp := 200, baseFeePerGas := none }
  hash := 888

/-- C7 witness: at the concrete fixtures the undecodable parameter block
and the missing base fee each yield BaseFeeMissing. -/
theorem holocene_decode_failure_masked_witness :
    validate_header_against_parent csAllActive hdrNoBaseFee parBadExtra =
      .error .BaseFeeMissing ∧
    validate_header_against_parent csAllActive hdrNoBaseFee parBadExtra =
      .error .BaseFeeMissing :=
  ⟨(holocene_decode_failure_masked csAllActive hdrNoBaseFee parBadExtra rfl (by rfl)
      (by rfl)).1 (.invalidLength 0) (by rfl),
   (holocene_decode_failure_masked csAllActive hdrNoBaseFee parBadExtra rfl (by rfl)
      (by rfl)).2 rfl⟩

/-- C8: the strict-timestamp rule is gated on Bedrock at the header's
number: with Bedrock active, a timestamp not strictly greater than the
parent's fails with TimestampIsInPast and a strictly greater one can
never produce that error; with Bedrock inactive no invocation returns
TimestampIsInPast at all. -/
theorem bedrock_gates_timestamp_rule (cs : ChainSpec) (header parent : SealedHeader)
    (hlink : validate_against_parent_hash_number header.header parent = .ok ()) :
    (cs.isBedrockActiveAtBlock header.header.number = true →
      ¬ header.header.timestamp > parent.header.timestamp →
      validate_header_against_parent cs header parent =
        .error (.TimestampIsInPast ⟨parent.header.timestamp, header.header.timestamp⟩)) ∧
    (cs.isBedrockActiveAtBlock header.header.number = true →
      header.header.timestamp > parent.header.timestamp →
      ∀ g, validate_header_against_parent cs header parent ≠
        .error (.TimestampIsInPast g)) ∧
    (cs.isBedrockActiveAtBlock header.header.number = false →
      ∀ g, validate_header_against_parent cs header parent ≠
        .error (.TimestampIsInPast g)) := by
  have hrest : ∀ g,
      (match (if cs.isHoloceneActiveAtTimestamp parent.header.timestamp then
                holocene_base_fee_check cs header.header parent
              else
                validate_against_parent_eip1559_base_fee cs header.header parent.header) with
        | .error e => (.error e : Except ConsensusError Unit)
        | .ok () => blob_gate cs header.header parent.header) ≠
        .error (.TimestampIsInPast g) := by
    intro g
    by_cases hh : cs.isHoloceneActiveAtTimestamp parent.header.timestamp = true
    · simp only [hh, if_true]
      rcases hc : holocene_base_fee_check cs header.header parent with e2 | u
      · simp only [hc]
        intro hcontra
        exact holocene_check_not_timestamp cs header.header parent g (hc.trans hcontra)
      · cases u
        simp only [hc]
        exact blob_gate_not_timestamp cs header.header parent.header g
    · simp only [hh, Bool.false_eq_true, if_false]
      rcases hc : validate_against_parent_eip1559_base_fee cs header.header parent.header
        with e2 | u
      · simp only [hc]
        intro hcontra
        exact eip1559_not_timestamp cs header.header parent.header g (hc.trans hcontra)
      · cases u
        simp only [hc]
        exact blob_gate_not_timestamp cs header.header parent.header g
  refine ⟨?_, ?_, ?_⟩
  · intro hbed hts
    have htstep : validate_against_parent_timestamp header.header parent.header =
        .error (.TimestampIsInPast ⟨parent.header.timestamp, header.header.timestamp⟩) := by
      simp [validate_against_parent_timestamp, hts]
    simp [validate_header_against_parent, hlink, hbed, htstep]
  · intro hbed hts g
    have htstep : validate_against_parent_timestamp header.header parent.header = .ok () := by
      simp [validate_against_parent_timestamp, hts]
    simp only [validate_header_against_parent, hlink, hbed, htstep, if_true]
    exact hrest g
  · intro hbed g
    simp only [validate_header_against_parent, hlink, hbed, Bool.false_eq_true, if_false]
    exact hrest g

/-- Parent fixture for the timestamp rule. -/
def parTimestamp : SealedHeader where
  header := baseHeader
  hash := 777

/-- Child header fixture whose timestamp 50 is behind its parent's
timestamp 100. -/
def hdrPastTimestamp : SealedHeader where
  header := { baseHeader with parentHash := 777, number := 2, timestamp := 50 }
  hash := 888

/-- C8 witness: with Bedrock active the stale-timestamp fixture fails
with TimestampIsInPast, and with Bedrock inactive the same pair never
produces that error. -/
theorem bedrock_gates_timestamp_rule_witness :
    validate_header_against_parent csAllActive hdrPastTimestamp parTimestamp =
      .error (.TimestampIsInPast ⟨100, 50⟩) ∧
    validate_header_against_parent csNoneActive hdrPastTimestamp parTimestamp ≠
      .error (.TimestampIsInPast ⟨100, 50⟩) :=
  ⟨(bedrock_gates_timestamp_rule csAllActive hdrPastTimestamp parTimestamp (by rfl)).1
      rfl (by decide),
   (bedrock_gates_timestamp_rule csNoneActive hdrPastTimestamp parTimestamp (by rfl)).2.2
      rfl ⟨100, 50⟩⟩

end RethOpConsensus
